import Mathlib

/-!
Shallow embedding of the job lifecycle engine of `kyungraekim/airport`
(`src/app/models/jobs.py` and `src/app/services/job_manager.py`).

Python dictionaries are modelled as association lists, `datetime.utcnow()`
timestamps as a `Nat` clock threaded through the mutating operations, and
the `float` `progress_percentage` as a rational number.  Pydantic's
`Field(ge=0, le=100)` validation on `JobProgress.progress_percentage` is
modelled by an `Option`-returning smart constructor: `none` corresponds to
a raised `ValidationError`.
-/

/-- `JobStatus` enum of `src/app/models/jobs.py`. -/
inductive JobStatus
  | pending
  | running
  | completed
  | failed
  | cancelled
deriving DecidableEq, Repr

/-- String value of each `JobStatus` member. -/
def JobStatus.value : JobStatus → String
  | .pending => "pending"
  | .running => "running"
  | .completed => "completed"
  | .failed => "failed"
  | .cancelled => "cancelled"

/-- `JobType` enum of `src/app/models/jobs.py`. -/
inductive JobType
  | train
  | eval
  | test
  | pipeline
  | modelValidation
deriving DecidableEq, Repr

/-- String value of each `JobType` member. -/
def JobType.value : JobType → String
  | .train => "train"
  | .eval => "eval"
  | .test => "test"
  | .pipeline => "pipeline"
  | .modelValidation => "model_validation"

/-- `JobProgress` model (`src/app/models/jobs.py`).  The
`estimated_time_remaining` field is never written by the engine and is
omitted. -/
structure JobProgress where
  current_step : String
  total_steps : Int
  completed_steps : Int
  progress_percentage : ℚ
deriving DecidableEq, Repr

/-- Pydantic validation of `JobProgress`: `progress_percentage` carries
`Field(ge=0, le=100)`, so construction fails (raises `ValidationError`,
modelled as `none`) when the percentage is outside `[0, 100]`. -/
def JobProgress.mkChecked (step : String) (total completed : Int)
    (pct : ℚ) : Option JobProgress :=
  if 0 ≤ pct ∧ pct ≤ 100 then
    some ⟨step, total, completed, pct⟩
  else
    none

/-- `JobResult` model (`src/app/models/jobs.py`).  The opaque `output`
dictionary is modelled as a string-keyed association list of strings. -/
structure JobResult where
  success : Bool
  output : List (String × String) := []
  error_message : Option String := none
  artifacts : List String := []
  metrics : List (String × ℚ) := []
deriving DecidableEq, Repr

/-- `Job` model (`src/app/models/jobs.py`).  Log entries keep their
timestamp and message as a pair instead of one formatted string. -/
structure Job where
  job_id : String
  job_type : JobType
  status : JobStatus := JobStatus.pending
  command_config : List (String × String) := []
  github_context : Option (List (String × String)) := none
  created_at : Nat := 0
  started_at : Option Nat := none
  completed_at : Option Nat := none
  progress : Option JobProgress := none
  result : Option JobResult := none
  external_job_ids : List (String × String) := []
  logs : List (Nat × String) := []
deriving DecidableEq, Repr

/-- `Job.add_log`: append a timestamped message to the job log. -/
def Job.add_log (j : Job) (t : Nat) (message : String) : Job :=
  { j with logs := j.logs ++ [(t, message)] }

/-- `Job.update_progress`: compute
`progress_pct = (completed / total) * 100 if total > 0 else 0`, build a new
`JobProgress` (pydantic-validated) and store it, then log `message` when it
is non-empty.  `none` models the `ValidationError` raised when the
percentage falls outside `[0, 100]`. -/
def Job.update_progress (j : Job) (t : Nat) (step : String)
    (completed total : Int) (message : String) : Option Job :=
  let progress_pct : ℚ :=
    if 0 < total then ((completed : ℚ) / (total : ℚ)) * 100 else 0
  (JobProgress.mkChecked step total completed progress_pct).map fun p =>
    let j1 := { j with progress := some p }
    if message = "" then j1 else j1.add_log t message

/-- `Job.mark_started`: set status to Running, record `started_at`, log. -/
def Job.mark_started (j : Job) (t : Nat) : Job :=
  ({ j with status := JobStatus.running, started_at := some t }).add_log t
    "Job started"

/-- `Job.mark_completed`: status becomes Completed or Failed according to
`result.success`; `completed_at` and `result` are overwritten; a completion
line is logged. -/
def Job.mark_completed (j : Job) (t : Nat) (result : JobResult) : Job :=
  let st := if result.success then JobStatus.completed else JobStatus.failed
  ({ j with status := st, completed_at := some t, result := some result
   }).add_log t ("Job completed with status: " ++ st.value)

/-- `Job.mark_cancelled`: unconditionally set status to Cancelled and
`completed_at`, then log the reason when non-empty. -/
def Job.mark_cancelled (j : Job) (t : Nat) (reason : String) : Job :=
  ({ j with status := JobStatus.cancelled, completed_at := some t
   }).add_log t
    (if reason = "" then "Job cancelled" else "Job cancelled: " ++ reason)

/-- A log entry whose message has `s` as a substring. -/
def Job.logMentions (j : Job) (s : String) : Prop :=
  ∃ e ∈ j.logs, ∃ pre post, e.2 = pre ++ s ++ post

/-!
Notifier gating (`JobManager._notify_job_progress`,
`JobManager._notify_job_completion`, `JobManager._update_github_comment`).
Each function below returns whether the GitHub adapter
(`github_service.update_pr_comment`) is actually invoked for the job.
-/

/-- Python truthiness of the optional `github_context` dictionary: `None`
and the empty dictionary are falsy. -/
def dictTruthy : Option (List (String × String)) → Bool
  | none => false
  | some l => !l.isEmpty

/-- Python truthiness of `dict.get(key)`: `None` (missing key) and the
empty string are falsy. -/
def strTruthy : Option String → Bool
  | none => false
  | some s => !(s == "")

/-- `JobManager._update_github_comment`: returns whether the call reaches
`github_service.update_pr_comment`.  It returns early when
`job.github_context` is falsy or when
`int(job.external_job_ids.get("github_comment_id", "0"))` is `0`; a
non-numeric string raises `ValueError`, swallowed by the `except` clause
(no adapter call). -/
def update_github_comment (j : Job) : Bool :=
  if dictTruthy j.github_context then
    match ((j.external_job_ids.lookup "github_comment_id").getD "0").toInt? with
    | none => false
    | some cid => !(cid == 0)
  else
    false

/-- `JobManager._notify_job_progress`: the adapter is consulted only when
`job.github_context` and `job.external_job_ids.get("github_comment_id")`
are both truthy. -/
def notify_job_progress (j : Job) : Bool :=
  if dictTruthy j.github_context
      && strTruthy (j.external_job_ids.lookup "github_comment_id") then
    update_github_comment j
  else
    false

/-- `JobManager._notify_job_completion`: same gate as the progress
notification, with `final=True` passed to the comment update. -/
def notify_job_completion (j : Job) : Bool :=
  if dictTruthy j.github_context
      && strTruthy (j.external_job_ids.lookup "github_comment_id") then
    update_github_comment j
  else
    false

/-!
The job manager table (`JobManager.__init__`, `start_job`, `get_job`,
`get_active_jobs`, `cancel_job`).  `self._jobs` is an insertion-ordered
dictionary, modelled as an association list; `self._active_tasks` keeps
only the job ids that have a live task handle.  Each operation of the
manager runs under `self._job_lock` and is modelled as one atomic function
on the state.
-/

/-- The mutable state owned by `JobManager`. -/
structure ManagerState where
  jobs : List (String × Job) := []
  active_tasks : List String := []
deriving DecidableEq, Repr

/-- Replace the value stored under `key` (Python mutates the `Job` object
held by the dictionary in place). -/
def updTable (l : List (String × Job)) (key : String) (j : Job) :
    List (String × Job) :=
  l.map fun p => if p.1 = key then (p.1, j) else p

/-- `JobManager.start_job`: under the lock, reject a duplicate id, else
store the job, mark it started, and record a task handle for the spawned
`_execute_job` task (which cannot run before `start_job` returns). -/
def start_job (st : ManagerState) (job : Job) (t : Nat) :
    Bool × ManagerState :=
  if (st.jobs.lookup job.job_id).isSome then
    (false, st)
  else
    (true,
      { jobs := st.jobs ++ [(job.job_id, job.mark_started t)],
        active_tasks := st.active_tasks ++ [job.job_id] })

/-- `JobManager.get_job`: dictionary lookup. -/
def get_job (st : ManagerState) (job_id : String) : Option Job :=
  st.jobs.lookup job_id

/-- `JobManager.get_active_jobs`: all stored jobs whose status is Pending
or Running, in insertion order. -/
def get_active_jobs (st : ManagerState) : List Job :=
  (st.jobs.map Prod.snd).filter fun j =>
    j.status == JobStatus.pending || j.status == JobStatus.running

/-- `JobManager.cancel_job`: under the lock, return false for an unknown
id; otherwise cancel and drop the task handle when present, and mark the
stored job cancelled — with no check of its current status. -/
def cancel_job (st : ManagerState) (job_id : String) (reason : String)
    (t : Nat) : Bool × ManagerState :=
  match st.jobs.lookup job_id with
  | none => (false, st)
  | some job =>
    (true,
      { jobs := updTable st.jobs job_id (job.mark_cancelled t reason),
        active_tasks := st.active_tasks.filter fun i => !(i == job_id) })

/-!
The work-function bodies (`JobManager._execute_train_job`,
`_execute_eval_job`, `_execute_test_job`, `_execute_pipeline_job`).  Each
body is a straight-line script of `update_progress` calls; inside a
`for`-loop every call is preceded by a cancellation check (`return` when
the status is already Cancelled) and followed by `_notify_job_progress`;
the initial call before the loop, and every call of the pipeline body,
has neither.  On completion the body calls `mark_completed` with its
hard-coded `JobResult` and then `_notify_job_completion`.
-/

/-- One `update_progress(step, completed, total, message)` call. -/
structure ProgressCall where
  step : String
  completed : Int
  total : Int
  message : String
deriving DecidableEq, Repr

/-- One statement of a work-function body. -/
inductive ExecAction
  | plainStep (c : ProgressCall)
  | loopStep (c : ProgressCall)
deriving DecidableEq, Repr

/-- Engine effect observable by the Notifier port; the Boolean records
whether the corresponding notification reached the GitHub adapter. -/
inductive Effect
  | progressNotify (adapter : Bool)
  | finalNotify (adapter : Bool)
deriving DecidableEq, Repr

/-- Whether an effect is an `onFinal` notification. -/
def Effect.isFinal : Effect → Bool
  | .finalNotify _ => true
  | .progressNotify _ => false

/-- Whether the effect reached the GitHub adapter. -/
def Effect.adapterCalled : Effect → Bool
  | .progressNotify b => b
  | .finalNotify b => b

def train_steps : List String :=
  ["Data loading", "Model setup", "Training", "Validation",
   "Saving results"]

def eval_steps : List String :=
  ["Loading models", "Running evaluation", "Computing metrics",
   "Generating report"]

def test_steps : List String :=
  ["Running smoke tests", "Running integration tests",
   "Generating test report"]

/-- `for i, step in enumerate(steps): job.update_progress(step, i,
len(steps), f"Executing \x7bstep\x7d")`, with the cancellation check and the
progress notification of the loop body. -/
def loopActions (steps : List String) : List ExecAction :=
  steps.enum.map fun p =>
    ExecAction.loopStep ⟨p.2, (p.1 : Int), (steps.length : Int),
      "Executing " ++ p.2⟩

/-- The sequence of statements each work-function body executes. -/
def execScript : JobType → List ExecAction
  | .train =>
    ExecAction.plainStep
      ⟨"Initializing training", 0, 5, "Setting up training environment"⟩ ::
    loopActions train_steps
  | .eval =>
    ExecAction.plainStep
      ⟨"Initializing evaluation", 0, 4, "Loading models for evaluation"⟩ ::
    loopActions eval_steps
  | .test =>
    ExecAction.plainStep
      ⟨"Initializing tests", 0, 3, "Setting up test environment"⟩ ::
    loopActions test_steps
  | .pipeline =>
    [ExecAction.plainStep
       ⟨"Initializing pipeline", 0, 1, "Planning pipeline steps"⟩,
     ExecAction.plainStep
       ⟨"Training model", 1, 3, "Executing training step"⟩,
     ExecAction.plainStep
       ⟨"Evaluating model", 2, 3, "Executing evaluation step"⟩]
  | .modelValidation => []

/-- The hard-coded `JobResult` each body passes to `mark_completed`;
`none` for the unknown kind, whose dispatch raises instead. -/
def execResult : JobType → Option JobResult
  | .train =>
    some
      { success := true,
        output := [("model_path", "/tmp/trained_model.bin"),
                   ("config_path", "/tmp/training_config.json")],
        metrics := [("final_loss", (0.0234 : ℚ)),
                    ("accuracy", (0.945 : ℚ)),
                    ("training_time", 300)],
        artifacts := ["model.bin", "config.json", "training_log.txt"] }
  | .eval =>
    some
      { success := true,
        output := [("evaluation_report", "/tmp/eval_report.json"),
                   ("comparison_chart", "/tmp/model_comparison.png")],
        metrics := [("baseline_accuracy", (0.923 : ℚ)),
                    ("incoming_accuracy", (0.945 : ℚ)),
                    ("improvement", (0.022 : ℚ))],
        artifacts := ["eval_report.json", "comparison.png"] }
  | .test =>
    some
      { success := true,
        output := [("test_report", "/tmp/test_report.xml"),
                   ("coverage_report", "/tmp/coverage.html")],
        metrics := [("tests_passed", 45), ("tests_failed", 0),
                    ("coverage", (0.87 : ℚ))],
        artifacts := ["test_report.xml", "coverage.html"] }
  | .pipeline =>
    some
      { success := true,
        output := [("pipeline_report", "/tmp/pipeline_report.json"),
                   ("final_model", "/tmp/final_model.bin")],
        metrics := [("pipeline_duration", 480), ("steps_completed", 2),
                    ("final_accuracy", (0.952 : ℚ))],
        artifacts := ["pipeline_report.json", "final_model.bin",
                      "logs.txt"] }
  | .modelValidation => none

/-- Result of running (a prefix of) a work-function body: the job state,
the clock, the job snapshot recorded after every `update_progress` call,
and the notification effects in order. -/
structure RunOut where
  job : Job
  clock : Nat
  snaps : List Job
  effects : List Effect
deriving Repr

/-- Run a list of body statements on a job.  A `loopStep` first checks for
a Cancelled status and returns early (dropping the rest of the body); a
failing `update_progress` (pydantic `ValidationError`) aborts the run with
`none`. -/
def runActions (j : Job) (t : Nat) : List ExecAction → Option RunOut
  | [] => some ⟨j, t, [], []⟩
  | ExecAction.plainStep c :: rest =>
    match j.update_progress t c.step c.completed c.total c.message with
    | none => none
    | some j1 =>
      (runActions j1 (t + 1) rest).map fun o =>
        ⟨o.job, o.clock, j1 :: o.snaps, o.effects⟩
  | ExecAction.loopStep c :: rest =>
    if j.status = JobStatus.cancelled then
      some ⟨j, t, [], []⟩
    else
      match j.update_progress t c.step c.completed c.total c.message with
      | none => none
      | some j1 =>
        (runActions j1 (t + 1) rest).map fun o =>
          ⟨o.job, o.clock, j1 :: o.snaps,
            Effect.progressNotify (notify_job_progress j1) :: o.effects⟩

/-- A full uncancelled run of the work-function body for `j.job_type`
(kinds with a registered body): the script, then `mark_completed` with the
body's result, then `_notify_job_completion`.  A body that returned early
on a Cancelled status skips completion. -/
def run_work (j : Job) (t : Nat) : Option RunOut :=
  match execResult j.job_type with
  | none => none
  | some res =>
    (runActions j t (execScript j.job_type)).map fun o =>
      if o.job.status = JobStatus.cancelled then o
      else
        let j2 := o.job.mark_completed o.clock res
        ⟨j2, o.clock + 1, o.snaps,
          o.effects ++ [Effect.finalNotify (notify_job_completion j2)]⟩

/-!
`JobManager._execute_job`: logs a starting line, dispatches on the job
type (an unknown type raises `ValueError(f"Unknown job type: ...")`), and
handles `asyncio.CancelledError` and generic exceptions.
-/

/-- The `except asyncio.CancelledError` branch of `_execute_job`: log the
cancellation; no status change, no result, no notification. -/
def execute_job_cancelled_handler (j : Job) (t : Nat) :
    Job × List Effect :=
  (j.add_log t "Job execution cancelled", [])

/-- The `except Exception` branch of `_execute_job`, for an exception
whose text is `excMsg`: log the error, mark the job Failed with a
`success=False` result carrying the error text, and notify completion. -/
def execute_job_exc_handler (j : Job) (t : Nat) (excMsg : String) :
    Job × List Effect :=
  let error_msg := "Job execution failed: " ++ excMsg
  let j1 := j.add_log t error_msg
  let j2 := j1.mark_completed (t + 1)
    { success := false, error_message := some error_msg }
  (j2, [Effect.finalNotify (notify_job_completion j2)])

/-- `_execute_job` for a job whose type has no dispatch branch
(`MODEL_VALIDATION`): the starting log line, then the `ValueError` raised
by the `else` branch is caught by the generic handler. -/
def execute_job_unknown_type (j : Job) (t : Nat) : Job × List Effect :=
  let j0 := j.add_log t ("Starting " ++ j.job_type.value ++
    " job execution")
  execute_job_exc_handler j0 (t + 1)
    ("Unknown job type: " ++ j.job_type.value)

/-- `_execute_job` for a work function that raises an exception with text
`excMsg` after executing the body prefix `done`: the starting log line,
the successfully executed prefix, then the generic exception handler. -/
def execute_job_raising (j : Job) (t : Nat) (done : List ExecAction)
    (excMsg : String) : Option (Job × List Effect) :=
  let j0 := j.add_log t ("Starting " ++ j.job_type.value ++
    " job execution")
  (runActions j0 (t + 1) done).map fun o =>
    let (j2, effs) := execute_job_exc_handler o.job o.clock excMsg
    (j2, o.effects ++ effs)

/-!
Projection lemmas for the `Job` mutators, and small facts about
association-list lookup, used throughout the proofs below.
-/

@[simp] theorem Job.status_add_log (j : Job) (t : Nat) (m : String) :
    (j.add_log t m).status = j.status := rfl

@[simp] theorem Job.job_id_add_log (j : Job) (t : Nat) (m : String) :
    (j.add_log t m).job_id = j.job_id := rfl

@[simp] theorem Job.result_add_log (j : Job) (t : Nat) (m : String) :
    (j.add_log t m).result = j.result := rfl

@[simp] theorem Job.progress_add_log (j : Job) (t : Nat) (m : String) :
    (j.add_log t m).progress = j.progress := rfl

@[simp] theorem Job.completed_at_add_log (j : Job) (t : Nat) (m : String) :
    (j.add_log t m).completed_at = j.completed_at := rfl

@[simp] theorem Job.github_context_add_log (j : Job) (t : Nat)
    (m : String) : (j.add_log t m).github_context = j.github_context := rfl

@[simp] theorem Job.external_add_log (j : Job) (t : Nat) (m : String) :
    (j.add_log t m).external_job_ids = j.external_job_ids := rfl

@[simp] theorem Job.job_type_add_log (j : Job) (t : Nat) (m : String) :
    (j.add_log t m).job_type = j.job_type := rfl

@[simp] theorem Job.logs_add_log (j : Job) (t : Nat) (m : String) :
    (j.add_log t m).logs = j.logs ++ [(t, m)] := rfl

@[simp] theorem Job.status_mark_started (j : Job) (t : Nat) :
    (j.mark_started t).status = JobStatus.running := rfl

@[simp] theorem Job.started_at_mark_started (j : Job) (t : Nat) :
    (j.mark_started t).started_at = some t := rfl

@[simp] theorem Job.job_id_mark_started (j : Job) (t : Nat) :
    (j.mark_started t).job_id = j.job_id := rfl

@[simp] theorem Job.status_mark_cancelled (j : Job) (t : Nat)
    (r : String) : (j.mark_cancelled t r).status = JobStatus.cancelled :=
  rfl

@[simp] theorem Job.completed_at_mark_cancelled (j : Job) (t : Nat)
    (r : String) : (j.mark_cancelled t r).completed_at = some t := rfl

@[simp] theorem Job.result_mark_cancelled (j : Job) (t : Nat)
    (r : String) : (j.mark_cancelled t r).result = j.result := rfl

@[simp] theorem Job.job_id_mark_cancelled (j : Job) (t : Nat)
    (r : String) : (j.mark_cancelled t r).job_id = j.job_id := rfl

theorem Job.logs_mark_cancelled (j : Job) (t : Nat) (r : String) :
    (j.mark_cancelled t r).logs =
      j.logs ++ [(t, if r = "" then "Job cancelled"
        else "Job cancelled: " ++ r)] := rfl

@[simp] theorem Job.status_mark_completed (j : Job) (t : Nat)
    (res : JobResult) :
    (j.mark_completed t res).status =
      if res.success then JobStatus.completed else JobStatus.failed := by
  simp [Job.mark_completed]

@[simp] theorem Job.result_mark_completed (j : Job) (t : Nat)
    (res : JobResult) : (j.mark_completed t res).result = some res := by
  simp [Job.mark_completed]

@[simp] theorem Job.completed_at_mark_completed (j : Job) (t : Nat)
    (res : JobResult) : (j.mark_completed t res).completed_at = some t := by
  simp [Job.mark_completed]

@[simp] theorem Job.progress_mark_completed (j : Job) (t : Nat)
    (res : JobResult) : (j.mark_completed t res).progress = j.progress := by
  simp [Job.mark_completed]

@[simp] theorem Job.github_context_mark_completed (j : Job) (t : Nat)
    (res : JobResult) :
    (j.mark_completed t res).github_context = j.github_context := by
  simp [Job.mark_completed]

@[simp] theorem Job.external_mark_completed (j : Job) (t : Nat)
    (res : JobResult) :
    (j.mark_completed t res).external_job_ids = j.external_job_ids := by
  simp [Job.mark_completed]

theorem Job.logs_mark_completed (j : Job) (t : Nat) (res : JobResult) :
    (j.mark_completed t res).logs =
      j.logs ++ [(t, "Job completed with status: " ++
        (if res.success then JobStatus.completed
          else JobStatus.failed).value)] := by
  simp [Job.mark_completed]

/-- `update_progress` succeeds iff the computed percentage passes
validation, and then only `progress` and `logs` change. -/
theorem Job.update_progress_some (j : Job) (t : Nat) (step : String)
    (completed total : Int) (message : String) (j' : Job)
    (h : j.update_progress t step completed total message = some j') :
    j'.progress = some ⟨step, total, completed,
        if 0 < total then ((completed : ℚ) / (total : ℚ)) * 100 else 0⟩ ∧
      j'.status = j.status ∧ j'.result = j.result ∧
      j'.job_id = j.job_id ∧ j'.github_context = j.github_context ∧
      j'.external_job_ids = j.external_job_ids ∧
      j'.completed_at = j.completed_at ∧ j'.job_type = j.job_type := by
  unfold Job.update_progress JobProgress.mkChecked at h
  dsimp only at h
  by_cases hok : 0 ≤ (if 0 < total
      then ((completed : ℚ) / (total : ℚ)) * 100 else 0) ∧
      (if 0 < total then ((completed : ℚ) / (total : ℚ)) * 100 else 0)
        ≤ 100
  · rw [if_pos hok] at h
    rw [show ∀ (a : JobProgress) (f : JobProgress → Job),
        Option.map f (some a) = some (f a) from fun _ _ => rfl] at h
    by_cases hm : message = ""
    · rw [if_pos hm, Option.some_inj] at h
      subst h
      simp
    · rw [if_neg hm, Option.some_inj] at h
      subst h
      simp [Job.add_log]
  · rw [if_neg hok] at h
    simp at h

theorem lookup_cons_eq {β : Type} (a k : String) (b : β)
    (es : List (String × β)) :
    ((k, b) :: es).lookup a =
      if a == k then some b else es.lookup a := by
  rw [List.lookup]
  cases a == k <;> simp

theorem lookup_append_none {β : Type} (a : String)
    (l l' : List (String × β)) (h : l.lookup a = none) :
    (l ++ l').lookup a = l'.lookup a := by
  induction l with
  | nil => rfl
  | cons p rest ih =>
    rw [List.cons_append]
    rcases p with ⟨k, b⟩
    rw [lookup_cons_eq] at h ⊢
    by_cases hk : a == k
    · rw [if_pos hk] at h
      exact absurd h (by simp)
    · rw [if_neg hk] at h ⊢
      exact ih h

theorem lookup_none_keys {β : Type} (a : String) (l : List (String × β))
    (h : l.lookup a = none) : ∀ p ∈ l, p.1 ≠ a := by
  induction l with
  | nil => intro p hp; cases hp
  | cons q rest ih =>
    rcases q with ⟨k, b⟩
    rw [lookup_cons_eq] at h
    by_cases hk : a == k
    · rw [if_pos hk] at h
      exact absurd h (by simp)
    · rw [if_neg hk] at h
      intro p hp
      rcases List.mem_cons.mp hp with hp | hp
      · subst hp
        intro he
        have he' : k = a := he
        exact hk (by simp [he'])
      · exact ih h p hp

theorem lookup_updTable_some (a : String) (l : List (String × Job))
    (x y : Job) (h : l.lookup a = some x) :
    (updTable l a y).lookup a = some y := by
  induction l with
  | nil => cases h
  | cons q rest ih =>
    rcases q with ⟨k, b⟩
    rw [lookup_cons_eq] at h
    unfold updTable
    rw [List.map_cons]
    by_cases hk : a == k
    · have hk' : k = a := (beq_iff_eq.mp hk).symm
      rw [if_pos hk']
      rw [lookup_cons_eq]
      simp [hk]
    · have hk' : ¬(k = a) := fun he => hk (by simp [he])
      rw [if_neg hk']
      rw [lookup_cons_eq, if_neg hk]
      rw [if_neg hk] at h
      exact ih h

@[simp] theorem option_map_some {α β : Type} (f : α → β) (a : α) :
    (some a).map f = some (f a) := rfl

/-- A job without a `github_context` never reaches the progress adapter. -/
theorem notify_job_progress_of_none (j : Job)
    (h : j.github_context = none) : notify_job_progress j = false := by
  simp [notify_job_progress, h, dictTruthy]

/-- A job without a `github_context` never reaches the final adapter. -/
theorem notify_job_completion_of_none (j : Job)
    (h : j.github_context = none) : notify_job_completion j = false := by
  simp [notify_job_completion, h, dictTruthy]

/-- Structural invariants of a successful `runActions` run: the work
function only touches `progress` and `logs`, its notification effects are
all progress notifications, and none of them reaches the adapter when the
job has no `github_context`. -/
theorem runActions_invariants (acts : List ExecAction) :
    ∀ (j : Job) (t : Nat) (o : RunOut), runActions j t acts = some o →
      o.job.status = j.status ∧
      o.job.github_context = j.github_context ∧
      o.job.external_job_ids = j.external_job_ids ∧
      o.job.result = j.result ∧
      o.job.job_type = j.job_type ∧
      o.job.job_id = j.job_id ∧
      (∀ e ∈ o.effects, e.isFinal = false) ∧
      (j.github_context = none →
        ∀ e ∈ o.effects, e.adapterCalled = false) := by
  induction acts with
  | nil =>
    intro j t o h
    simp only [runActions, Option.some_inj] at h
    subst h
    simp
  | cons a rest ih =>
    intro j t o h
    cases a with
    | plainStep c =>
      simp only [runActions] at h
      cases hup : j.update_progress t c.step c.completed c.total
          c.message with
      | none => simp [hup] at h
      | some j1 =>
        simp only [hup] at h
        cases hrec : runActions j1 (t + 1) rest with
        | none => simp [hrec] at h
        | some o' =>
          rw [hrec] at h
          simp only [option_map_some, Option.some_inj] at h
          subst h
          obtain ⟨hst, hgc, hext, hres, hjt, hjd, heff, hadapt⟩ :=
            ih j1 (t + 1) o' hrec
          obtain ⟨_, hst1, hres1, hid1, hgc1, hext1, _, hjt1⟩ :=
            Job.update_progress_some _ _ _ _ _ _ _ hup
          refine ⟨?_, ?_, ?_, ?_, ?_, ?_, ?_, ?_⟩
          · exact hst.trans hst1
          · exact hgc.trans hgc1
          · exact hext.trans hext1
          · exact hres.trans hres1
          · exact hjt.trans hjt1
          · exact hjd.trans hid1
          · exact heff
          · intro hnone e he
            exact hadapt (hgc1.trans hnone) e he
    | loopStep c =>
      simp only [runActions] at h
      by_cases hc : j.status = JobStatus.cancelled
      · rw [if_pos hc, Option.some_inj] at h
        subst h
        simp
      · rw [if_neg hc] at h
        cases hup : j.update_progress t c.step c.completed c.total
            c.message with
        | none => simp [hup] at h
        | some j1 =>
          simp only [hup] at h
          cases hrec : runActions j1 (t + 1) rest with
          | none => simp [hrec] at h
          | some o' =>
            rw [hrec] at h
            simp only [option_map_some, Option.some_inj] at h
            subst h
            obtain ⟨hst, hgc, hext, hres, hjt, hjd, heff, hadapt⟩ :=
              ih j1 (t + 1) o' hrec
            obtain ⟨_, hst1, hres1, hid1, hgc1, hext1, _, hjt1⟩ :=
              Job.update_progress_some _ _ _ _ _ _ _ hup
            refine ⟨hst.trans hst1, hgc.trans hgc1, hext.trans hext1,
              hres.trans hres1, hjt.trans hjt1, hjd.trans hid1, ?_, ?_⟩
            · intro e he
              rcases List.mem_cons.mp he with he | he
              · subst he; rfl
              · exact heff e he
            · intro hnone e he
              rcases List.mem_cons.mp he with he | he
              · subst he
                exact notify_job_progress_of_none j1 (hgc1.trans hnone)
              · exact hadapt (hgc1.trans hnone) e he

/-!
Claim theorems.
-/

/-- A job that has already completed successfully: terminal status, a
recorded result, `completed_at` set. -/
def jobDone : Job :=
  { job_id := "job-1", job_type := JobType.test,
    status := JobStatus.completed, started_at := some 1,
    completed_at := some 5, result := some { success := true } }

/-- C1: `cancel` on a job that is already Completed is not a no-op: the
engine calls `mark_cancelled` unconditionally, so the terminal status is
overwritten with Cancelled and `completed_at` is reset to the cancel time;
only `result` is left intact.  This contradicts the single-terminal-
transition property the spec states, so it is evidence of the code bug. -/
theorem c1_cancel_overwrites_terminal :
    cancel_job ⟨[("job-1", jobDone)], []⟩ "job-1" "stop" 9 =
      (true, ⟨[("job-1", jobDone.mark_cancelled 9 "stop")], []⟩) ∧
    jobDone.status = JobStatus.completed ∧
    jobDone.completed_at = some 5 ∧
    (jobDone.mark_cancelled 9 "stop").status = JobStatus.cancelled ∧
    (jobDone.mark_cancelled 9 "stop").completed_at = some 9 ∧
    (jobDone.mark_cancelled 9 "stop").result = jobDone.result := by
  refine ⟨?_, rfl, rfl, rfl, rfl, rfl⟩
  rfl

/-- C10: whenever `start` accepts a job, the stored job is already Running
with `started_at` set at the moment `start` returns: the Pending→Running
transition happens synchronously under the lock, before the spawned task
can run, so no caller ever sees an accepted job still Pending. -/
theorem c10_start_accepted_is_running (st : ManagerState) (j : Job)
    (t : Nat) (h : (start_job st j t).1 = true) :
    get_job (start_job st j t).2 j.job_id = some (j.mark_started t) ∧
    (j.mark_started t).status = JobStatus.running ∧
    (j.mark_started t).status ≠ JobStatus.pending ∧
    (j.mark_started t).started_at = some t := by
  cases hl : st.jobs.lookup j.job_id with
  | some x =>
    exfalso
    unfold start_job at h
    rw [hl] at h
    simp at h
  | none =>
    have hst : start_job st j t =
        (true, ⟨st.jobs ++ [(j.job_id, j.mark_started t)],
          st.active_tasks ++ [j.job_id]⟩) := by
      simp [start_job, hl]
    rw [hst]
    refine ⟨?_, rfl, by simp, rfl⟩
    unfold get_job
    show (st.jobs ++ [(j.job_id, j.mark_started t)]).lookup j.job_id = _
    rw [lookup_append_none _ _ _ hl, lookup_cons_eq]
    simp

/-- A fresh Pending job used to instantiate the hypotheses of the
start-related theorems. -/
def jobFresh : Job := { job_id := "w10", job_type := JobType.train }

/-- Witness for C10 at a concrete accepted start. -/
theorem c10_start_accepted_is_running_witness :
    (start_job ⟨[], []⟩ jobFresh 3).1 = true ∧
    (get_job (start_job ⟨[], []⟩ jobFresh 3).2 jobFresh.job_id =
        some (jobFresh.mark_started 3) ∧
      (jobFresh.mark_started 3).status = JobStatus.running ∧
      (jobFresh.mark_started 3).status ≠ JobStatus.pending ∧
      (jobFresh.mark_started 3).started_at = some 3) :=
  ⟨rfl, c10_start_accepted_is_running ⟨[], []⟩ jobFresh 3 rfl⟩

/-- C3: starting a second job with an id already in the table fails:
the second `start` returns false and changes nothing, and the active-jobs
view holds exactly one entry for that id. -/
theorem c3_duplicate_start (st : ManagerState) (j1 j2 : Job) (t1 t2 : Nat)
    (hwf : ∀ p ∈ st.jobs, p.1 = p.2.job_id)
    (hid : j2.job_id = j1.job_id)
    (hnew : st.jobs.lookup j1.job_id = none) :
    (start_job st j1 t1).1 = true ∧
    start_job (start_job st j1 t1).2 j2 t2 =
      (false, (start_job st j1 t1).2) ∧
    ((get_active_jobs (start_job st j1 t1).2).filter
      fun j => j.job_id == j1.job_id).length = 1 := by
  have hst : start_job st j1 t1 =
      (true, ⟨st.jobs ++ [(j1.job_id, j1.mark_started t1)],
        st.active_tasks ++ [j1.job_id]⟩) := by
    simp [start_job, hnew]
  have hlook : (st.jobs ++
      [(j1.job_id, j1.mark_started t1)]).lookup j2.job_id =
      some (j1.mark_started t1) := by
    rw [hid, lookup_append_none _ _ _ hnew, lookup_cons_eq]
    simp
  refine ⟨by rw [hst], ?_, ?_⟩
  · rw [hst]
    simp only [start_job, hlook, Option.isSome_some, if_pos]
  · rw [hst]
    unfold get_active_jobs
    rw [List.map_append, List.filter_append, List.filter_append,
      List.length_append]
    have hleft : ((st.jobs.map Prod.snd).filter fun j =>
        j.status == JobStatus.pending ||
          j.status == JobStatus.running).filter
        (fun j => j.job_id == j1.job_id) = [] := by
      apply List.filter_eq_nil_iff.mpr
      intro a ha
      have ha' := (List.mem_filter.mp ha).1
      rcases List.mem_map.mp ha' with ⟨p, hp, hpa⟩
      have hkey := hwf p hp
      have hne := lookup_none_keys _ _ hnew p hp
      intro hcontra
      apply hne
      rw [hkey, ← hpa] at *
      exact beq_iff_eq.mp hcontra ▸ hkey
    rw [hleft]
    simp [Job.mark_started, Job.add_log]

/-- Witness for C3: two starts with the same id from the empty table. -/
theorem c3_duplicate_start_witness :
    (start_job ⟨[], []⟩ jobFresh 0).1 = true ∧
    start_job (start_job ⟨[], []⟩ jobFresh 0).2 jobFresh 1 =
      (false, (start_job ⟨[], []⟩ jobFresh 0).2) ∧
    ((get_active_jobs (start_job ⟨[], []⟩ jobFresh 0).2).filter
      fun j => j.job_id == jobFresh.job_id).length = 1 :=
  c3_duplicate_start ⟨[], []⟩ jobFresh jobFresh 0 1
    (by intro p hp; cases hp) rfl rfl

@[simp] theorem Job.job_type_mark_started (j : Job) (t : Nat) :
    (j.mark_started t).job_type = j.job_type := rfl

/-- A job of the kind that has no dispatch branch in `_execute_job`. -/
def jobMV : Job := { job_id := "mv-1", job_type := JobType.modelValidation }

/-- C2 counterexample: a job whose kind has no registered work function is
accepted anyway — `start` returns true and the job is stored, so a
subsequent `getJob` finds it, contradicting the claimed synchronous false
return with nothing stored. -/
theorem c2_counterexample :
    (start_job ⟨[], []⟩ jobMV 0).1 = true ∧
    (get_job (start_job ⟨[], []⟩ jobMV 0).2 "mv-1").isSome = true :=
  ⟨rfl, rfl⟩

/-- C2 (amended): `start` does not consult any work-function registry, so
a job of the unregistered kind is stored and accepted; the configuration
error instead surfaces asynchronously inside the spawned task, whose
dispatch raises `ValueError("Unknown job type: …")`, caught by the generic
handler: the job ends Failed with that error message and one final
notification attempt. -/
theorem c2_unregistered_kind_failure (st : ManagerState) (j : Job)
    (t t2 : Nat) (hk : j.job_type = JobType.modelValidation)
    (hnew : st.jobs.lookup j.job_id = none) :
    (start_job st j t).1 = true ∧
    get_job (start_job st j t).2 j.job_id = some (j.mark_started t) ∧
    (execute_job_unknown_type (j.mark_started t) t2).1.status =
      JobStatus.failed ∧
    (execute_job_unknown_type (j.mark_started t) t2).1.result =
      some { success := false,
             error_message := some
               "Job execution failed: Unknown job type: model_validation" } ∧
    ((execute_job_unknown_type (j.mark_started t) t2).2.filter
      Effect.isFinal).length = 1 := by
  have hst : start_job st j t =
      (true, ⟨st.jobs ++ [(j.job_id, j.mark_started t)],
        st.active_tasks ++ [j.job_id]⟩) := by
    simp [start_job, hnew]
  have hk' : (j.mark_started t).job_type = JobType.modelValidation := by
    rw [Job.job_type_mark_started, hk]
  refine ⟨by rw [hst], ?_, ?_, ?_, ?_⟩
  · rw [hst]
    unfold get_job
    show (st.jobs ++ [(j.job_id, j.mark_started t)]).lookup j.job_id = _
    rw [lookup_append_none _ _ _ hnew, lookup_cons_eq]
    simp
  · simp [execute_job_unknown_type, execute_job_exc_handler, hk']
  · unfold execute_job_unknown_type execute_job_exc_handler
    rw [Job.job_type_mark_started, hk]
    simp [JobType.value]
    try rfl
  · simp [execute_job_unknown_type, execute_job_exc_handler,
      Effect.isFinal]

/-- Witness for C2's amended theorem at the concrete fixture job. -/
theorem c2_unregistered_kind_failure_witness :
    (start_job ⟨[], []⟩ jobMV 0).2.jobs ≠ [] ∧
    ((execute_job_unknown_type (jobMV.mark_started 0) 1).1.status =
      JobStatus.failed ∧
    (execute_job_unknown_type (jobMV.mark_started 0) 1).1.result =
      some { success := false,
             error_message := some
               "Job execution failed: Unknown job type: model_validation" }) :=
  ⟨by simp [start_job, jobMV],
    ⟨(c2_unregistered_kind_failure ⟨[], []⟩ jobMV 0 1 rfl rfl).2.2.1,
     (c2_unregistered_kind_failure ⟨[], []⟩ jobMV 0 1 rfl rfl).2.2.2.1⟩⟩

/-- C4: whenever the work function raises mid-execution (after any prefix
of its body), the generic handler marks the job Failed with a
`success=False` result carrying a non-empty error message, logs the error,
and attempts the final notification exactly once. -/
theorem c4_work_function_failure (j : Job) (t : Nat)
    (done : List ExecAction) (msg : String) (jf : Job)
    (effs : List Effect)
    (h : execute_job_raising j t done msg = some (jf, effs)) :
    jf.status = JobStatus.failed ∧
    jf.result = some { success := false,
                       error_message :=
                         some ("Job execution failed: " ++ msg) } ∧
    ("Job execution failed: " ++ msg) ≠ "" ∧
    jf.logMentions ("Job execution failed: " ++ msg) ∧
    (effs.filter Effect.isFinal).length = 1 := by
  unfold execute_job_raising at h
  cases hrec : runActions
      (j.add_log t ("Starting " ++ j.job_type.value ++ " job execution"))
      (t + 1) done with
  | none => simp [hrec] at h
  | some o =>
    simp only [hrec] at h
    simp only [option_map_some, Option.some_inj] at h
    have hfin := (runActions_invariants done _ _ _ hrec).2.2.2.2.2.2.1
    simp only [execute_job_exc_handler] at h
    rw [Prod.mk.injEq] at h
    obtain ⟨hjf, heffs⟩ := h
    subst hjf
    subst heffs
    refine ⟨by simp, by simp, ?_, ?_, ?_⟩
    · intro he
      have h2 : ("Job execution failed: " ++ msg).length = 0 := by
        rw [he]; rfl
      simp [String.length_append] at h2
      exact absurd h2.1 (by decide)
    · refine ⟨(o.clock, "Job execution failed: " ++ msg), ?_, "", "", ?_⟩
      · rw [Job.logs_mark_completed, Job.logs_add_log]
        simp
      · simp
    · rw [List.filter_append]
      have hnil : o.effects.filter Effect.isFinal = [] := by
        apply List.filter_eq_nil_iff.mpr
        intro e he
        rw [hfin e he]
        simp
      rw [hnil]
      simp [Effect.isFinal]

/-- Witness for C4: a work function for the fixture running job raising
"boom" before its first progress call. -/
theorem c4_work_function_failure_witness :
    (execute_job_raising (jobFresh.mark_started 0) 1 [] "boom").isSome ∧
    ∀ jf effs,
      execute_job_raising (jobFresh.mark_started 0) 1 [] "boom" =
        some (jf, effs) →
      jf.status = JobStatus.failed ∧
      jf.result = some { success := false,
                         error_message :=
                           some ("Job execution failed: " ++ "boom") } ∧
      (effs.filter Effect.isFinal).length = 1 := by
  refine ⟨by rfl, ?_⟩
  intro jf effs h
  obtain ⟨h1, h2, _, _, h5⟩ :=
    c4_work_function_failure (jobFresh.mark_started 0) 1 [] "boom" jf
      effs h
  exact ⟨h1, h2, h5⟩

/-- C5: cancelling a stored job (result still unset) yields a Cancelled
job whose result stays null; after the task observes the cancellation,
the log holds both the "execution cancelled" line and the caller-supplied
reason, and the cancellation path performs no notifier call. -/
theorem c5_cancel_behaviour (st : ManagerState) (id reason : String)
    (t : Nat) (j : Job) (hfound : st.jobs.lookup id = some j)
    (hres : j.result = none) (hreason : reason ≠ "") :
    (cancel_job st id reason t).1 = true ∧
    get_job (cancel_job st id reason t).2 id =
      some (j.mark_cancelled t reason) ∧
    (execute_job_cancelled_handler (j.mark_cancelled t reason)
      (t + 1)).1.status = JobStatus.cancelled ∧
    (execute_job_cancelled_handler (j.mark_cancelled t reason)
      (t + 1)).1.result = none ∧
    (execute_job_cancelled_handler (j.mark_cancelled t reason)
      (t + 1)).1.logMentions "execution cancelled" ∧
    (execute_job_cancelled_handler (j.mark_cancelled t reason)
      (t + 1)).1.logMentions reason ∧
    (execute_job_cancelled_handler (j.mark_cancelled t reason)
      (t + 1)).2 = [] := by
  refine ⟨?_, ?_, ?_, ?_, ?_, ?_, rfl⟩
  · simp [cancel_job, hfound]
  · unfold get_job
    have h2 : (cancel_job st id reason t).2.jobs =
        updTable st.jobs id (j.mark_cancelled t reason) := by
      simp [cancel_job, hfound]
    rw [h2]
    exact lookup_updTable_some _ _ _ _ hfound
  · simp [execute_job_cancelled_handler]
  · simp [execute_job_cancelled_handler, hres]
  · refine ⟨(t + 1, "Job execution cancelled"), ?_, "Job ", "", by rfl⟩
    simp [execute_job_cancelled_handler]
  · refine ⟨(t, "Job cancelled: " ++ reason), ?_, "Job cancelled: ", "",
      by simp⟩
    simp [execute_job_cancelled_handler, Job.logs_mark_cancelled,
      hreason]

/-- A running job without a result, as the table stores it right after a
successful start. -/
def jobRunning : Job :=
  { job_id := "run-1", job_type := JobType.train,
    status := JobStatus.running, started_at := some 0 }

/-- Witness for C5 at a concrete table and the reason "user requested". -/
theorem c5_cancel_behaviour_witness :
    (cancel_job ⟨[("run-1", jobRunning)], ["run-1"]⟩ "run-1"
      "user requested" 4).1 = true ∧
    (execute_job_cancelled_handler (jobRunning.mark_cancelled 4
      "user requested") 5).1.status = JobStatus.cancelled ∧
    (execute_job_cancelled_handler (jobRunning.mark_cancelled 4
      "user requested") 5).1.result = none ∧
    (execute_job_cancelled_handler (jobRunning.mark_cancelled 4
      "user requested") 5).1.logMentions "user requested" := by
  obtain ⟨h1, _, h3, h4, _, h6, _⟩ :=
    c5_cancel_behaviour ⟨[("run-1", jobRunning)], ["run-1"]⟩ "run-1"
      "user requested" 4 jobRunning rfl rfl (by simp)
  exact ⟨h1, h3, h4, h6⟩

/-- A successful `update_progress` implies the computed percentage passed
the `[0, 100]` validation. -/
theorem Job.update_progress_pct_ok (j : Job) (t : Nat) (step : String)
    (completed total : Int) (message : String) (j' : Job)
    (h : j.update_progress t step completed total message = some j') :
    0 ≤ (if 0 < total then ((completed : ℚ) / (total : ℚ)) * 100
        else 0) ∧
    (if 0 < total then ((completed : ℚ) / (total : ℚ)) * 100 else 0)
      ≤ 100 := by
  by_contra hc
  unfold Job.update_progress JobProgress.mkChecked at h
  dsimp only at h
  rw [if_neg hc] at h
  simp at h

/-- C6 counterexample: `update_progress` with `completed_steps=5`,
`total_steps=3` computes 500/3 % and, far from clamping it to 100, fails
pydantic validation — nothing is stored and the call raises. -/
theorem c6_counterexample :
    Job.update_progress jobRunning 0 "step" 5 3 "" = none := by
  norm_num [Job.update_progress, JobProgress.mkChecked]

/-- C6 (amended): whenever a progress update is accepted, the stored
percentage is exactly `completed/total*100` (0 when `total = 0`, with no
division fault) — unclamped, since out-of-range values are rejected by
validation instead — and therefore always within `[0, 100]`. -/
theorem c6_percentage_bound (j : Job) (t : Nat) (step : String)
    (completed total : Int) (message : String) (j' : Job)
    (h : j.update_progress t step completed total message = some j') :
    ∃ p, j'.progress = some p ∧
      p.progress_percentage =
        (if 0 < total then ((completed : ℚ) / (total : ℚ)) * 100
          else 0) ∧
      0 ≤ p.progress_percentage ∧ p.progress_percentage ≤ 100 ∧
      (total = 0 → p.progress_percentage = 0) ∧
      p.completed_steps = completed ∧ p.total_steps = total := by
  obtain ⟨hp, _⟩ := Job.update_progress_some _ _ _ _ _ _ _ h
  obtain ⟨h0, h100⟩ := Job.update_progress_pct_ok _ _ _ _ _ _ _ h
  refine ⟨_, hp, rfl, h0, h100, ?_, rfl, rfl⟩
  intro h0'
  subst h0'
  simp

/-- The job state produced by the sample accepted update used by the
witnesses below. -/
def jobRunningProgressed : Job :=
  { jobRunning with progress := some ⟨"s", 0, 0, 0⟩ }

/-- The sample update: `total_steps = 0` is accepted and stores 0 %. -/
theorem update_progress_sample :
    jobRunning.update_progress 2 "s" 0 0 "" =
      some jobRunningProgressed := rfl

/-- Witness for C6's amended theorem at the `total_steps = 0` update. -/
theorem c6_percentage_bound_witness :
    jobRunning.update_progress 2 "s" 0 0 "" =
      some jobRunningProgressed ∧
    ∃ p, jobRunningProgressed.progress = some p ∧
      p.progress_percentage =
        (if (0 : Int) < 0 then ((0 : ℚ) / (0 : ℚ)) * 100 else 0) ∧
      0 ≤ p.progress_percentage ∧ p.progress_percentage ≤ 100 ∧
      ((0 : Int) = 0 → p.progress_percentage = 0) ∧
      p.completed_steps = 0 ∧ p.total_steps = 0 :=
  ⟨update_progress_sample,
    c6_percentage_bound jobRunning 2 "s" 0 0 "" jobRunningProgressed
      update_progress_sample⟩

/-- C8: a job with no `github_context` and no `github_comment_id` entry
never reaches the notifier adapter: both notification hooks decline, and
a full run of its work function produces only adapter-free effects. -/
theorem c8_notification_skip (j : Job)
    (hgc : j.github_context = none)
    (hext : j.external_job_ids.lookup "github_comment_id" = none) :
    notify_job_progress j = false ∧
    notify_job_completion j = false ∧
    ∀ (t : Nat) (o : RunOut), run_work j t = some o →
      ∀ e ∈ o.effects, e.adapterCalled = false := by
  refine ⟨notify_job_progress_of_none j hgc,
    notify_job_completion_of_none j hgc, ?_⟩
  intro t o h e he
  unfold run_work at h
  cases hres : execResult j.job_type with
  | none => rw [hres] at h; cases h
  | some res =>
    rw [hres] at h
    cases hrec : runActions j t (execScript j.job_type) with
    | none => simp [hrec] at h
    | some o' =>
      simp only [hrec, option_map_some, Option.some_inj] at h
      obtain ⟨hst, hgc', hext', _, _, _, _, hadapt⟩ :=
        runActions_invariants _ _ _ _ hrec
      by_cases hc : o'.job.status = JobStatus.cancelled
      · rw [if_pos hc] at h
        subst h
        exact hadapt hgc e he
      · rw [if_neg hc] at h
        subst h
        rcases List.mem_append.mp he with hm | hm
        · exact hadapt hgc e hm
        · rw [List.mem_singleton] at hm
          subst hm
          show notify_job_completion _ = false
          apply notify_job_completion_of_none
          rw [Job.github_context_mark_completed, hgc', hgc]

/-- Witness for C8: the fixture running job carries no origin. -/
theorem c8_notification_skip_witness :
    notify_job_progress jobRunning = false ∧
    notify_job_completion jobRunning = false ∧
    ∀ (t : Nat) (o : RunOut), run_work jobRunning t = some o →
      ∀ e ∈ o.effects, e.adapterCalled = false :=
  c8_notification_skip jobRunning rfl rfl

/-- The `completed` argument a body statement passes to
`update_progress`. -/
def actionCompleted : ExecAction → Int
  | .plainStep c => c.completed
  | .loopStep c => c.completed

/-- C9: the sequence of `completed_steps` values each work-function body
passes to `update_progress` is non-decreasing, and every accepted update
stores exactly the passed value — so the `completed_steps` any reader
observes over one job's lifetime never decreases. -/
theorem c9_progress_monotone :
    (∀ k : JobType,
      List.Chain' (· ≤ ·) ((execScript k).map actionCompleted)) ∧
    ∀ (j : Job) (t : Nat) (step : String) (completed total : Int)
      (message : String) (j' : Job),
      j.update_progress t step completed total message = some j' →
      ∃ p, j'.progress = some p ∧ p.completed_steps = completed := by
  constructor
  · intro k
    cases k <;>
      simp [execScript, loopActions, train_steps, eval_steps, test_steps,
        List.enum, List.enumFrom, actionCompleted, List.chain'_cons]
  · intro j t step completed total message j' h
    obtain ⟨hp, _⟩ := Job.update_progress_some _ _ _ _ _ _ _ h
    exact ⟨_, hp, rfl⟩

/-- Witness for C9 at the train script and the sample update. -/
theorem c9_progress_monotone_witness :
    List.Chain' (· ≤ ·)
      ((execScript JobType.train).map actionCompleted) ∧
    ∃ p, jobRunningProgressed.progress = some p ∧
      p.completed_steps = 0 :=
  ⟨c9_progress_monotone.1 JobType.train,
    c9_progress_monotone.2 jobRunning 2 "s" 0 0 ""
      jobRunningProgressed update_progress_sample⟩

/-- A test-kind job as stored right after a successful start. -/
def jobTestRunning : Job :=
  { job_id := "t-1", job_type := JobType.test,
    status := JobStatus.running, started_at := some 0 }

/-- C7 counterexample: running the 3-step test body records the snapshot
sequence (0, 0 %), (0, 0 %), (1, 33.3 %), (2, 66.7 %) and leaves the final
progress at 2/3 (66.7 %): the update for step `i` passes `i` — the steps
completed before it — so no read ever shows `completed_steps = 3` or
100 %, contradicting the claimed 1, 2, 3 / 33.3, 66.7, 100.0 readings. -/
theorem c7_counterexample :
    ((run_work jobTestRunning 1).map fun o =>
      (o.snaps.map fun s => s.progress.map fun p =>
        (p.completed_steps, p.progress_percentage),
       o.job.status, o.job.result.isSome,
       o.job.progress.map fun p =>
         (p.completed_steps, p.progress_percentage))) =
    some ([some (0, 0), some (0, 0), some (1, 100 / 3),
        some (2, 200 / 3)],
      JobStatus.completed, true,
      some (2, 200 / 3)) := by
  have ha : (((0 : Int) : ℚ) / ((3 : Int) : ℚ)) * 100 = 0 := by norm_num
  have hb : (((1 : Int) : ℚ) / ((3 : Int) : ℚ)) * 100 = 100 / 3 := by
    norm_num
  have hc : (((2 : Int) : ℚ) / ((3 : Int) : ℚ)) * 100 = 200 / 3 := by
    norm_num
  have hq2 : (0 : ℚ) ≤ 100 := by norm_num
  have hq3 : (0 : ℚ) ≤ 100 / 3 := by norm_num
  have hq4 : (100 / 3 : ℚ) ≤ 100 := by norm_num
  have hq5 : (0 : ℚ) ≤ 200 / 3 := by norm_num
  have hq6 : (200 / 3 : ℚ) ≤ 100 := by norm_num
  have hx1 : ((3 : ℚ))⁻¹ ≤ 1 := by norm_num
  have hx2 : ((2 : ℚ) / 3) ≤ 1 := by norm_num
  have hx3 : ((3 : ℚ))⁻¹ * 100 = 100 / 3 := by norm_num
  have hx4 : ((2 : ℚ) / 3) * 100 = 200 / 3 := by norm_num
  simp +decide [run_work, runActions, execScript, loopActions, test_steps,
    execResult, Job.update_progress, JobProgress.mkChecked,
    List.enum, List.enumFrom, Job.mark_completed, jobTestRunning,
    Job.add_log, ha, hb, hc, hq2, hq3, hq4, hq5, hq6, hx1, hx2, hx3,
    hx4]

/-- C7 (amended): for every started (Running) job of the test kind, the
reads after successive updates show `completed_steps` 0, 0, 1, 2 with
percentages 0, 0, ≈33.3, ≈66.7 — each update reports the steps completed
before the current one and no update follows the last step — and the job
finishes Completed with the non-null test result, its progress left at
2/3 (≈66.7 %). -/
theorem c7_test_job_progress (j : Job) (t : Nat)
    (hk : j.job_type = JobType.test)
    (hst : j.status = JobStatus.running) :
    ((run_work j t).map fun o =>
      (o.snaps.map fun s => s.progress.map fun p =>
        (p.completed_steps, p.progress_percentage),
       o.job.status, o.job.result, o.job.progress.map fun p =>
         (p.completed_steps, p.progress_percentage))) =
    some ([some (0, 0), some (0, 0), some (1, 100 / 3),
        some (2, 200 / 3)],
      JobStatus.completed, execResult JobType.test,
      some (2, 200 / 3)) := by
  have ha : (((0 : Int) : ℚ) / ((3 : Int) : ℚ)) * 100 = 0 := by norm_num
  have hb : (((1 : Int) : ℚ) / ((3 : Int) : ℚ)) * 100 = 100 / 3 := by
    norm_num
  have hc : (((2 : Int) : ℚ) / ((3 : Int) : ℚ)) * 100 = 200 / 3 := by
    norm_num
  have hq2 : (0 : ℚ) ≤ 100 := by norm_num
  have hq3 : (0 : ℚ) ≤ 100 / 3 := by norm_num
  have hq4 : (100 / 3 : ℚ) ≤ 100 := by norm_num
  have hq5 : (0 : ℚ) ≤ 200 / 3 := by norm_num
  have hq6 : (200 / 3 : ℚ) ≤ 100 := by norm_num
  have hx1 : ((3 : ℚ))⁻¹ ≤ 1 := by norm_num
  have hx2 : ((2 : ℚ) / 3) ≤ 1 := by norm_num
  have hx3 : ((3 : ℚ))⁻¹ * 100 = 100 / 3 := by norm_num
  have hx4 : ((2 : ℚ) / 3) * 100 = 200 / 3 := by norm_num
  simp +decide [run_work, runActions, execScript, loopActions, test_steps,
    execResult, Job.update_progress, JobProgress.mkChecked,
    List.enum, List.enumFrom, Job.mark_completed, hk, hst,
    Job.add_log, ha, hb, hc, hq2, hq3, hq4, hq5, hq6, hx1, hx2, hx3,
    hx4]

/-- Witness for C7's amended theorem at the concrete started test job. -/
theorem c7_test_job_progress_witness :
    ((run_work jobTestRunning 7).map fun o =>
      (o.snaps.map fun s => s.progress.map fun p =>
        (p.completed_steps, p.progress_percentage),
       o.job.status, o.job.result, o.job.progress.map fun p =>
         (p.completed_steps, p.progress_percentage))) =
    some ([some (0, 0), some (0, 0), some (1, 100 / 3),
        some (2, 200 / 3)],
      JobStatus.completed, execResult JobType.test,
      some (2, 200 / 3)) :=
  c7_test_job_progress jobTestRunning 7 rfl rfl
